import Mathlib

/-!
Shallow embedding of the steam-deck-game-tags plugin core
(src/main.py, src/backend/src/database.py, src/backend/src/hltb_service.py,
src/backend/src/steam_data.py) and verification of the frozen claims.

Modelling conventions:
* SQLite tables become association lists keyed by the appid string; an
  upsert replaces the first binding in place, as the SQL
  `ON CONFLICT(appid) DO UPDATE` does.
* Python ints are `Int`, SQLite REAL / Python floats are `Rat` (all
  constants appearing in the code - 0.7, 1.5, 60, 85 - are exactly
  representable, so exact arithmetic matches float arithmetic on every
  value the program manipulates here).
* A value that Python may set to `None` is an `Option`.
* A Python function that can raise past the modelled fragment returns
  `Except Unit`.
-/

deriving instance DecidableEq for Except

namespace GameTags

/-- Exact rational division, written through mkRat so that concrete values
compute inside the kernel (the library division is irreducible).  Division
by zero yields 0, which no modelled code path reaches. -/
def rdiv (a b : Rat) : Rat :=
  if b.num < 0 then mkRat (-(a.num * (b.den : Int))) (a.den * b.num.natAbs)
  else mkRat (a.num * (b.den : Int)) (a.den * b.num.natAbs)

/-- Exact rational multiplication through mkRat, for the same reason. -/
def rmul (a b : Rat) : Rat :=
  mkRat (a.num * b.num) (a.den * b.den)

/-- rmul agrees with the library multiplication. -/
theorem rmul_eq_mul (a b : Rat) : rmul a b = a * b := by
  rw [rmul, Rat.mul_def, Rat.normalize_eq_mkRat]

/-- rdiv agrees with the library division. -/
theorem rdiv_eq_div (a b : Rat) : rdiv a b = a / b := by
  rw [Rat.div_def', rdiv]
  rcases lt_or_le b.num 0 with hb | hb
  · rw [if_pos hb]
    have habs : |b.num| = -b.num := abs_of_neg hb
    have hden : (a.den : Int) * b.num = -((a.den * b.num.natAbs : Nat) : Int) := by
      push_cast
      rw [habs]
      ring
    rw [← Rat.divInt_ofNat, hden, Rat.divInt_neg]
  · rw [if_neg (not_lt.mpr hb)]
    have habs : |b.num| = b.num := abs_of_nonneg hb
    have hden : (a.den : Int) * b.num = ((a.den * b.num.natAbs : Nat) : Int) := by
      push_cast
      rw [habs]
    rw [← Rat.divInt_ofNat, hden]

/-- First-match lookup in an association list, like a dict / SQL primary-key
lookup. -/
def alookup {β : Type} : List (String × β) → String → Option β
  | [], _ => none
  | (k, v) :: t, a => if k = a then some v else alookup t a

/-- Replace the first binding of the key, or append a new binding: the
observable behaviour of the SQL upsert used throughout database.py. -/
def upsert {β : Type} : List (String × β) → String → β → List (String × β)
  | [], a, v => [(a, v)]
  | (k, w) :: t, a, v => if k = a then (a, v) :: t else (k, w) :: upsert t a v

/-- True when the first list of characters starts with the second. -/
def charsStart : List Char → List Char → Bool
  | _, [] => true
  | [], _ :: _ => false
  | c :: cs, p :: ps => c == p && charsStart cs ps

/-- str.startswith of Python, spelled out over the character lists so that
concrete instances compute inside the kernel. -/
def strStartsWith (s p : String) : Bool :=
  charsStart s.toList p.toList

/-- Digit-string accumulator for pyInt?. -/
def digitsAux : List Char → Nat → Option Nat
  | [], acc => some acc
  | c :: cs, acc =>
    if '0' ≤ c ∧ c ≤ '9' then digitsAux cs (acc * 10 + (c.toNat - 48)) else none

/-- int(s) of Python on the identifier strings this program handles: an
optional minus sign followed by decimal digits; anything else raises
ValueError, modelled as none. -/
def pyInt? (s : String) : Option Int :=
  match s.toList with
  | [] => none
  | '-' :: rest =>
    if rest = [] then none else (digitsAux rest 0).map (fun n => -(n : Int))
  | l => (digitsAux l 0).map (fun n => (n : Int))

/-- A row of the `game_tags` table (database.py, init_database).
`last_updated` abstracts the CURRENT_TIMESTAMP written on each set. -/
structure TagRow where
  tag : String
  is_manual : Bool
  last_updated : Int
deriving Repr, DecidableEq

/-- A row of the `game_stats` table (database.py, init_database).  The table
has exactly these columns: there is no achievement_percentage, is_hidden or
rt_last_time_played column. -/
structure StatsRow where
  game_name : String
  playtime_minutes : Int
  total_achievements : Int
  unlocked_achievements : Int
  last_sync : Int
deriving Repr, DecidableEq

/-- The dictionary shape produced by HLTBService.search_game and consumed by
Database.cache_hltb_data / returned by Database.get_hltb_cache (minus the
appid, which is the table key). -/
structure HltbData where
  game_name : String
  matched_name : Option String
  similarity : Option Rat
  main_story : Option Rat
  main_extra : Option Rat
  completionist : Option Rat
  all_styles : Option Rat
  hltb_url : Option String
deriving Repr, DecidableEq

/-- The `cached_at` column value.  Database.cache_hltb_data always writes the
SQLite CURRENT_TIMESTAMP, which is the text `YYYY-MM-DD HH:MM:SS` - never
parseable by Python float().  The numeric constructor models a hypothetical
row holding a number instead, which get_hltb_cache would age-check. -/
inductive CachedAt where
  | sqliteText (t : Int)
  | numericVal (q : Rat)
deriving Repr, DecidableEq

/-- A row of the `hltb_cache` table. -/
structure HltbRow where
  data : HltbData
  cached_at : CachedAt
deriving Repr, DecidableEq

/-- A settings value after the type coercion Database.get_all_settings /
get_setting performs on the stored TEXT: 'true'/'false' become booleans,
float-parseable text becomes a float, anything else stays a string. -/
inductive SettingVal where
  | boolv (v : Bool)
  | num (v : Rat)
  | strv (v : String)
deriving Repr, DecidableEq

/-- The whole SQLite database state. -/
structure DB where
  game_tags : List (String × TagRow)
  game_stats : List (String × StatsRow)
  hltb_cache : List (String × HltbRow)
  settings : List (String × SettingVal)
deriving Repr, DecidableEq

/-- The default settings seeded by Database.init_database: the INSERT OR
IGNORE writes auto_tag_enabled='true', mastered_multiplier='1.5',
in_progress_threshold='60', cache_ttl='7200' (shown here after the read-side
type coercion). -/
def initialSettings : List (String × SettingVal) :=
  [("auto_tag_enabled", SettingVal.boolv true),
   ("mastered_multiplier", SettingVal.num (mkRat 3 2)),
   ("in_progress_threshold", SettingVal.num 60),
   ("cache_ttl", SettingVal.num 7200)]

/-- A freshly initialized database: empty tables, default settings. -/
def initialDb : DB :=
  { game_tags := [], game_stats := [], hltb_cache := [], settings := initialSettings }

/-- Database.get_tag. -/
def getTag (db : DB) (appid : String) : Option TagRow :=
  alookup db.game_tags appid

/-- Database.set_tag.  The `game_tags` schema carries
CHECK(tag IN ('completed', 'in_progress', 'mastered')): inserting any other
value raises IntegrityError, which set_tag catches, returning False and
leaving the table unchanged. -/
def setTag (db : DB) (appid tag : String) (is_manual : Bool) (tnow : Int) :
    Bool × DB :=
  if tag = "completed" ∨ tag = "in_progress" ∨ tag = "mastered" then
    (true, { db with game_tags := upsert db.game_tags appid ⟨tag, is_manual, tnow⟩ })
  else
    (false, db)

/-- Database.get_game_stats. -/
def getGameStats (db : DB) (appid : String) : Option StatsRow :=
  alookup db.game_stats appid

/-- The stats dictionary main.py builds and hands to update_game_stats.
sync_game_with_playtime also puts achievement_percentage, is_hidden and
rt_last_time_played into it; the store ignores those three. -/
structure StatsDict where
  game_name : String
  playtime_minutes : Int
  total_achievements : Int
  unlocked_achievements : Int
  achievement_percentage : Rat
  is_hidden : Bool
  rt_last_time_played : Option Int
deriving Repr, DecidableEq

/-- Database.update_game_stats: upserts exactly the five game_stats columns.
The achievement_percentage, is_hidden and rt_last_time_played entries of the
incoming dictionary are dropped because the table has no such columns. -/
def updateGameStats (db : DB) (appid : String) (s : StatsDict) (tnow : Int) : DB :=
  let row : StatsRow :=
    ⟨s.game_name, s.playtime_minutes, s.total_achievements, s.unlocked_achievements, tnow⟩
  { db with game_stats := upsert db.game_stats appid row }

/-- Database.cache_hltb_data: upserts the row with cached_at set to the
SQLite CURRENT_TIMESTAMP text. -/
def cacheHltbData (db : DB) (appid : String) (d : HltbData) (tnow : Int) : DB :=
  { db with hltb_cache := upsert db.hltb_cache appid ⟨d, CachedAt.sqliteText tnow⟩ }

/-- Database.get_hltb_cache: looks the row up and then age-checks it against
`ttl`.  float(cached_at) succeeds only on a numeric cached_at; on the
CURRENT_TIMESTAMP text it raises ValueError, and the except-branch sets
cached_time to the current time, so the row is never considered expired. -/
def getHltbCache (db : DB) (appid : String) (ttl : Rat) (tnow : Rat) :
    Option HltbData :=
  match alookup db.hltb_cache appid with
  | none => none
  | some row =>
    match row.cached_at with
    | CachedAt.numericVal q => if tnow - q > ttl then none else some row.data
    | CachedAt.sqliteText _ => some row.data

/-- The stats dictionary as read back by Plugin.calculate_auto_tag.  It is
produced from a game_stats row, so rt_last_time_played can only be absent
there; the field exists because calculate_auto_tag reads it with .get. -/
structure StatsInput where
  playtime_minutes : Int
  total_achievements : Int
  unlocked_achievements : Int
  rt_last_time_played : Option Int
deriving Repr, DecidableEq

/-- View a stored game_stats row the way get_game_stats returns it to
calculate_auto_tag: the dictionary has no rt_last_time_played key, so the
.get yields None. -/
def rowToInput (r : StatsRow) : StatsInput :=
  ⟨r.playtime_minutes, r.total_achievements, r.unlocked_achievements, none⟩

/-- Achievement percentage as computed in calculate_auto_tag:
(unlocked / total) * 100 when total > 0, else 0. -/
def achPct (s : StatsInput) : Rat :=
  if s.total_achievements > 0 then
    rmul (rdiv (s.unlocked_achievements : Rat) (s.total_achievements : Rat)) 100
  else 0

/-- Rule 1 of calculate_auto_tag: achievement percentage at least 85. -/
def masteredB (s : StatsInput) : Bool :=
  decide (85 ≤ achPct s)

/-- Truthiness of an optional float, as Python sees it: present and nonzero. -/
def optTruthy (o : Option Rat) : Bool :=
  match o with
  | none => false
  | some q => q != 0

/-- Rule 2 of calculate_auto_tag: an HLTB entry with truthy main_story, and
playtime_minutes at least main_story * 60. -/
def completedB (s : StatsInput) (hltb : Option HltbData) : Bool :=
  match hltb with
  | none => false
  | some h =>
    match h.main_story with
    | none => false
    | some ms => (ms != 0) && decide (rmul ms 60 ≤ (s.playtime_minutes : Rat))

/-- Rule 3 of calculate_auto_tag: rt_last_time_played truthy and positive,
and more than 365 days (in seconds) before the current time. -/
def droppedB (s : StatsInput) (tnow : Int) : Bool :=
  match s.rt_last_time_played with
  | none => false
  | some t => (t != 0) && decide (0 < t) && decide (365 * 24 * 60 * 60 < tnow - t)

/-- Rule 4 comparison of calculate_auto_tag:
`stats['playtime_minutes'] >= settings.get('in_progress_threshold', 30)`.
With the key absent the int default 30 is used; a numeric value compares as
a float, a boolean compares as 0/1 (Python bool is an int); comparing an int
against a string raises TypeError, modelled as `none`. -/
def inProgressCmp (s : StatsInput) (v : Option SettingVal) : Option Bool :=
  match v with
  | none => some (decide ((30 : Rat) ≤ (s.playtime_minutes : Rat)))
  | some (SettingVal.num q) => some (decide (q ≤ (s.playtime_minutes : Rat)))
  | some (SettingVal.boolv b) =>
    some (decide ((if b then (1 : Rat) else 0) ≤ (s.playtime_minutes : Rat)))
  | some (SettingVal.strv _) => none

/-- True when a settings value is a (non-bool, non-float-parseable) string:
the one shape whose comparison against an int raises TypeError. -/
def isStrVal : Option SettingVal → Bool
  | some (SettingVal.strv _) => true
  | _ => false

/-- Plugin.calculate_auto_tag, lines 226-265, as a pure function of the
stats dictionary, the HLTB cache lookup result, the settings map and the
current unix time.  `.error ()` is the TypeError escaping the in-progress
comparison. -/
def calcAutoTagCore (s : StatsInput) (hltb : Option HltbData)
    (settings : List (String × SettingVal)) (tnow : Int) :
    Except Unit (Option String) :=
  if masteredB s then Except.ok (some "mastered")
  else if completedB s hltb then Except.ok (some "completed")
  else if droppedB s tnow then Except.ok (some "dropped")
  else
    match inProgressCmp s (alookup settings "in_progress_threshold") with
    | none => Except.error ()
    | some true => Except.ok (some "in_progress")
    | some false => Except.ok none

/-- Plugin.calculate_auto_tag including its own store reads: stats via
get_game_stats (None means no tag), the HLTB row via get_hltb_cache with the
default ttl 7200, and the settings via get_all_settings. -/
def calcAutoTagDb (db : DB) (appid : String) (tnow : Int) :
    Except Unit (Option String) :=
  match getGameStats db appid with
  | none => Except.ok none
  | some row =>
    calcAutoTagCore (rowToInput row) (getHltbCache db appid 7200 (tnow : Rat))
      db.settings tnow

/-- A single result object of the external howlongtobeatpy search, as
HLTBService.search_game consumes it. -/
structure Candidate where
  game_name : String
  similarity : Rat
  main_story : Option Rat
  main_extra : Option Rat
  completionist : Option Rat
  all_styles : Option Rat
  game_web_link : String
deriving Repr, DecidableEq

/-- Python max(results, key=...) over a nonempty list: keeps the earlier
element on ties, replaces only on a strictly greater key. -/
def bestBy (c : Candidate) (cs : List Candidate) : Candidate :=
  cs.foldl (fun acc x => if acc.similarity < x.similarity then x else acc) c

/-- HLTBService.search_game: placeholder or empty names and empty result
lists give None; otherwise the best match is kept only when its similarity
reaches min_similarity = 0.7, and the returned dictionary copies the match
fields (main_story may be None - search_game does not filter on it). -/
def hltbServiceSearch (game_name : String) (results : List Candidate) :
    Option HltbData :=
  if game_name = "" ∨ strStartsWith game_name "Unknown" then none
  else
    match results with
    | [] => none
    | c :: cs =>
      let best := bestBy c cs
      if best.similarity < mkRat 7 10 then none
      else
        some ⟨game_name, some best.game_name, some best.similarity, best.main_story,
          best.main_extra, best.completionist, best.all_styles, some best.game_web_link⟩

/-- The external collaborators a sync invocation consults, as oracles:
the HLTB search (already shaped like HLTBService.search_game output), the
local appmanifest name lookup (SteamDataService.get_game_name), the Steam
Store name fallback (_fetch_game_name_from_steam_store), and the wall
clock. -/
structure Env where
  search : String → Option HltbData
  steamName : String → String
  storeName : String → Option String
  tnow : Int

/-- The value sync_game_tags and sync_game_with_playtime return: the tag
dictionary read back after the sync (plus the tag_changed flag where the
caller sets it), or the caught/propagated exception. -/
structure SyncPOut where
  tag : Option TagRow
  tag_changed : Bool
deriving Repr, DecidableEq

/-- Result of Plugin.sync_game_tags: the tag dictionary, or the error
dictionary produced by its except-branch. -/
inductive SyncTagsOut where
  | res (t : Option TagRow)
  | err
deriving Repr, DecidableEq

/-- The HLTB step of Plugin.sync_game_tags (lines 286-292): on a cache miss
the service is searched and ANY returned dictionary is cached - this path
has no main_story gate. -/
def hltbStepTags (env : Env) (db : DB) (appid gameName : String) : DB :=
  match getHltbCache db appid 7200 (env.tnow : Rat) with
  | some _ => db
  | none =>
    match env.search gameName with
    | some d => cacheHltbData db appid d env.tnow
    | none => db

/-- Plugin.sync_game_tags.  `liveStats` is the stats dictionary returned by
steam_service.get_game_stats_full for this appid.  A manual tag with
force=False returns immediately without touching the store; otherwise stats
are refreshed, the HLTB cache possibly filled, the tag recomputed, and the
tag row rewritten when the value changed or a forced reset of a manual tag
was requested.  The classifier TypeError is caught by the except-branch
after the store writes already happened. -/
def syncGameTags (env : Env) (db : DB) (appid : String) (force : Bool)
    (liveStats : StatsDict) : SyncTagsOut × DB :=
  let current := getTag db appid
  let curManual := (current.map (fun t => t.is_manual)).getD false
  if curManual && !force then
    (SyncTagsOut.res current, db)
  else
    let db1 := updateGameStats db appid liveStats env.tnow
    let db2 := hltbStepTags env db1 appid liveStats.game_name
    match calcAutoTagDb db2 appid env.tnow with
    | Except.error _ => (SyncTagsOut.err, db2)
    | Except.ok newTag =>
      let db3 :=
        match newTag with
        | some v =>
          let curVal := current.map (fun t => t.tag)
          if some v ≠ curVal ∨ (force && curManual) then
            (setTag db2 appid v false env.tnow).2
          else db2
        | none => db2
      (SyncTagsOut.res (getTag db3 appid), db3)

/-- Fallback branch of the name resolution in sync_game_with_playtime: the
local manifest name, replaced by a truthy Steam Store result when it is
missing or a placeholder. -/
def resolveNameFallback (env : Env) (appid : String) : String :=
  let sn := env.steamName appid
  if sn = "" ∨ strStartsWith sn "Unknown Game" ∨ strStartsWith sn "Game " then
    match env.storeName appid with
    | some s => if s ≠ "" then s else sn
    | none => sn
  else sn

/-- Name resolution of Plugin.sync_game_with_playtime: a truthy frontend
name wins; otherwise the fallback chain. -/
def resolveName (env : Env) (appid : String) (frontendName : Option String) : String :=
  match frontendName with
  | some n => if n ≠ "" then n else resolveNameFallback env appid
  | none => resolveNameFallback env appid

/-- The non-Steam check of sync_game_with_playtime: int(appid) succeeds and
exceeds 2 billion; a non-numeric appid raises ValueError, caught as False. -/
def isNonSteamApp (appid : String) : Bool :=
  match pyInt? appid with
  | some n => decide (n > 2000000000)
  | none => false

/-- Plugin.sync_game_with_playtime.  Achievement arguments are None when the
frontend had no data; stored values are then preserved.  The HLTB fetch runs
when no cached row exists or the cached row has no truthy main_story, and
caches only a result with truthy main_story.  Stats (minus the columns the
store lacks) are always written; the tag is recomputed and written only for
non-manual, non-hidden games.  A classifier TypeError propagates (there is
no try here), after the stats write. -/
def syncGameWithPlaytime (env : Env) (db : DB) (appid : String)
    (playtime : Int) (totalAch unlockedAch : Option Int) (achPctArg : Option Rat)
    (frontendName : Option String) (rtLast : Option Int) :
    Except Unit SyncPOut × DB :=
  let current := getTag db appid
  let isManual := (current.map (fun t => t.is_manual)).getD false
  let existing := getGameStats db appid
  let gameName := resolveName env appid frontendName
  let nonSteam := isNonSteamApp appid
  let cached0 := getHltbCache db appid 7200 (env.tnow : Rat)
  let shouldFetch :=
    match cached0 with
    | none => true
    | some d => !(optTruthy d.main_story)
  let fetched :=
    if shouldFetch then
      match env.search gameName with
      | some d => if optTruthy d.main_story then some d else none
      | none => none
    else none
  let db1 :=
    match fetched with
    | some d => cacheHltbData db appid d env.tnow
    | none => db
  let cached1 :=
    match fetched with
    | some d => some d
    | none => cached0
  let isHidden := nonSteam && cached1.isNone
  let finTotal := totalAch.getD ((existing.map (fun r => r.total_achievements)).getD 0)
  let finUnlocked := unlockedAch.getD ((existing.map (fun r => r.unlocked_achievements)).getD 0)
  let finPct := achPctArg.getD 0
  let statsDict : StatsDict :=
    ⟨gameName, playtime, finTotal, finUnlocked, finPct, isHidden, rtLast⟩
  let db2 := updateGameStats db1 appid statsDict env.tnow
  if isManual then
    (Except.ok ⟨getTag db2 appid, false⟩, db2)
  else if isHidden then
    (Except.ok ⟨getTag db2 appid, false⟩, db2)
  else
    match calcAutoTagDb db2 appid env.tnow with
    | Except.error _ => (Except.error (), db2)
    | Except.ok calcTag =>
      match calcTag with
      | some v =>
        let curVal := current.map (fun t => t.tag)
        if some v ≠ curVal then
          let db3 := (setTag db2 appid v false env.tnow).2
          (Except.ok ⟨getTag db3 appid, true⟩, db3)
        else
          (Except.ok ⟨getTag db2 appid, false⟩, db2)
      | none => (Except.ok ⟨getTag db2 appid, false⟩, db2)

/-- A value of the game_data map supplied by the frontend to
sync_library_with_playtime (new format). -/
structure GameInfo where
  playtime_minutes : Int
  rt_last_time_played : Option Int
deriving Repr, DecidableEq

/-- A value of the achievement_data map supplied by the frontend. -/
structure AchInfo where
  total : Int
  unlocked : Int
  percentage : Rat
deriving Repr, DecidableEq

/-- The counters sync_library_with_playtime reports back. -/
structure LibCounts where
  total : Nat
  synced : Nat
  new_tags : Nat
  errors : Nat
deriving Repr, DecidableEq

/-- Achievement-argument extraction in the sync_library_with_playtime loop:
data is forwarded only when the frontend entry exists with total > 0,
otherwise None is passed to preserve stored values. -/
def achTriple (ad : List (String × AchInfo)) (appid : String) :
    Option Int × Option Int × Option Rat :=
  match alookup ad appid with
  | some g =>
    if g.total > 0 then (some g.total, some g.unlocked, some g.percentage)
    else (none, none, none)
  | none => (none, none, none)

/-- The per-game loop of Plugin.sync_library_with_playtime over
appids_to_sync = list(game_data.keys()).  A per-game exception increments
errors and the loop continues with the state the failed sync left behind. -/
def syncLibraryLoop (env : Env) (gd : List (String × GameInfo))
    (ad : List (String × AchInfo)) (gn : List (String × String)) :
    List String → DB → LibCounts → LibCounts × DB
  | [], db, cnt => (cnt, db)
  | appid :: rest, db, cnt =>
    let gname := alookup gn appid
    let info := (alookup gd appid).getD ⟨0, none⟩
    let t3 := achTriple ad appid
    let out := syncGameWithPlaytime env db appid info.playtime_minutes
      t3.1 t3.2.1 t3.2.2 gname info.rt_last_time_played
    let cnt' :=
      match out.1 with
      | Except.ok r =>
        { cnt with synced := cnt.synced + 1,
                   new_tags := cnt.new_tags + (if r.tag_changed then 1 else 0) }
      | Except.error _ => { cnt with errors := cnt.errors + 1 }
    syncLibraryLoop env gd ad gn rest out.2 cnt'

/-- Plugin.sync_library_with_playtime (after the calling-convention
unwrapping): iterates over exactly the keys of the supplied game_data map. -/
def syncLibraryWithPlaytime (env : Env) (gd : List (String × GameInfo))
    (ad : List (String × AchInfo)) (gn : List (String × String)) (db : DB) :
    LibCounts × DB :=
  syncLibraryLoop env gd ad gn (gd.map Prod.fst) db ⟨gd.length, 0, 0, 0⟩

/-- Plugin.set_manual_tag (after parameter extraction): rejects a missing
appid or tag, validates against the four-value enum, then calls
Database.set_tag with is_manual=True, reporting its boolean. -/
def setManualTag (db : DB) (appid : String) (tag : Option String) (tnow : Int) :
    Bool × DB :=
  if appid = "" then (false, db)
  else
    match tag with
    | none => (false, db)
    | some t =>
      if t = "" then (false, db)
      else if t = "completed" ∨ t = "in_progress" ∨ t = "mastered" ∨ t = "dropped" then
        setTag db appid t true tnow
      else (false, db)

/-- True when the pattern occurs at the front of the byte list. -/
def startsWithBytes : List Nat → List Nat → Bool
  | _, [] => true
  | [], _ :: _ => false
  | a :: as, b :: bs => a == b && startsWithBytes as bs

/-- Fuel-bounded scan for bytes.find: try indices i, i+1, ... up to the
buffer length. -/
def bFindAux (content pat : List Nat) : Nat → Nat → Option Nat
  | 0, _ => none
  | fuel + 1, i =>
    if content.length < i then none
    else if startsWithBytes (content.drop i) pat then some i
    else bFindAux content pat fuel (i + 1)

/-- bytes.find(pat, start) of Python: the least index from `start` at which
the pattern occurs, None for -1.  The fuel covers every index up to the
buffer length, after which a nonempty pattern can no longer match. -/
def bFind (content pat : List Nat) (start : Nat) : Option Nat :=
  bFindAux content pat (content.length + 1 - start) start

/-- content[a:b] on a byte buffer. -/
def sliceBytes (content : List Nat) (a b : Nat) : List Nat :=
  (content.drop a).take (b - a)

/-- int.from_bytes(_, 'little'). -/
def leDecode (l : List Nat) : Nat :=
  l.foldr (fun b acc => b + 256 * acc) 0

/-- The marker bytes b'\x01AppName\x00' (9 bytes). -/
def appNameMarker : List Nat := [1, 65, 112, 112, 78, 97, 109, 101, 0]

/-- The marker bytes b'\x02appid\x00' (7 bytes). -/
def appidMarker : List Nat := [2, 97, 112, 112, 105, 100, 0]

/-- One record emitted by SteamDataService._parse_shortcuts_binary.  The
name is kept as raw bytes (the code decodes them as UTF-8 with errors
ignored); appid is stored as str(appid). -/
structure ShortcutRec where
  appid : String
  name : List Nat
  playtime_minutes : Int
  is_non_steam : Bool
deriving Repr, DecidableEq

/-- The while-loop of _parse_shortcuts_binary.  One fuel unit per
iteration; since pos strictly increases each round, content.length + 1
units never run out before the loop guard or a break stops the scan. -/
def shortcutsLoop (content : List Nat) : Nat → Nat → List ShortcutRec → List ShortcutRec
  | 0, _, acc => acc
  | fuel + 1, pos, acc =>
    if pos < content.length then
      match bFind content appNameMarker pos with
      | none => acc
      | some m =>
        let nameStart := m + 9
        match bFind content [0] nameStart with
        | none => acc
        | some nameEnd =>
          let appName := sliceBytes content nameStart nameEnd
          let appid : Option Nat :=
            match bFind content appidMarker pos with
            | some am =>
              if am < m + 500 then
                if am + 7 + 4 ≤ content.length then
                  some (leDecode (sliceBytes content (am + 7) (am + 7 + 4)))
                else none
              else none
            | none => none
          let acc' :=
            match appid with
            | some idv =>
              if appName ≠ [] ∧ idv ≠ 0 then
                acc ++ [ShortcutRec.mk (toString idv) appName 0 true]
              else acc
            | none => acc
          shortcutsLoop content fuel (nameEnd + 1) acc'
    else acc

/-- SteamDataService._parse_shortcuts_binary: scan the buffer for
AppName/appid field pairs.  It never raises: every failure mode of the
Python loop is a break returning the records accumulated so far. -/
def parseShortcutsBinary (content : List Nat) : List ShortcutRec :=
  shortcutsLoop content (content.length + 1) 0 []

/-!
Supporting lemmas.
-/

theorem alookup_upsert_self {β : Type} (l : List (String × β)) (a : String) (v : β) :
    alookup (upsert l a v) a = some v := by
  induction l with
  | nil => simp [upsert, alookup]
  | cons h t ih =>
    obtain ⟨k, w⟩ := h
    by_cases hk : k = a
    · simp [upsert, hk, alookup]
    · simp [upsert, hk, alookup, ih]

theorem alookup_upsert_ne {β : Type} (l : List (String × β)) (a b : String) (v : β)
    (hne : b ≠ a) : alookup (upsert l a v) b = alookup l b := by
  have hab : a ≠ b := Ne.symm hne
  induction l with
  | nil => simp [upsert, alookup, hab]
  | cons hd t ih =>
    obtain ⟨k, w⟩ := hd
    by_cases hk : k = a
    · subst hk
      simp [upsert, alookup, hab]
    · simp only [upsert, if_neg hk, alookup, ih]

@[simp]
theorem updateGameStats_game_tags (db : DB) (a : String) (s : StatsDict) (t : Int) :
    (updateGameStats db a s t).game_tags = db.game_tags := rfl

@[simp]
theorem updateGameStats_hltb_cache (db : DB) (a : String) (s : StatsDict) (t : Int) :
    (updateGameStats db a s t).hltb_cache = db.hltb_cache := rfl

@[simp]
theorem updateGameStats_settings (db : DB) (a : String) (s : StatsDict) (t : Int) :
    (updateGameStats db a s t).settings = db.settings := rfl

@[simp]
theorem cacheHltbData_game_tags (db : DB) (a : String) (d : HltbData) (t : Int) :
    (cacheHltbData db a d t).game_tags = db.game_tags := rfl

@[simp]
theorem cacheHltbData_game_stats (db : DB) (a : String) (d : HltbData) (t : Int) :
    (cacheHltbData db a d t).game_stats = db.game_stats := rfl

@[simp]
theorem cacheHltbData_settings (db : DB) (a : String) (d : HltbData) (t : Int) :
    (cacheHltbData db a d t).settings = db.settings := rfl

@[simp]
theorem setTag_game_stats (db : DB) (a v : String) (m : Bool) (t : Int) :
    ((setTag db a v m t).2).game_stats = db.game_stats := by
  unfold setTag
  split <;> rfl

@[simp]
theorem setTag_hltb_cache (db : DB) (a v : String) (m : Bool) (t : Int) :
    ((setTag db a v m t).2).hltb_cache = db.hltb_cache := by
  unfold setTag
  split <;> rfl

@[simp]
theorem setTag_settings (db : DB) (a v : String) (m : Bool) (t : Int) :
    ((setTag db a v m t).2).settings = db.settings := by
  unfold setTag
  split <;> rfl

/-- The classifier, when fed stats read back from the store, can never
answer "dropped": the game_stats table has no rt_last_time_played column,
so the dictionary get_game_stats builds lacks the key and rule 3 is dead. -/
theorem calcAutoTagDb_not_dropped (db : DB) (appid : String) (tnow : Int) (v : String) :
    calcAutoTagDb db appid tnow = Except.ok (some v) →
    v = "mastered" ∨ v = "completed" ∨ v = "in_progress" := by
  unfold calcAutoTagDb
  cases hrow : getGameStats db appid with
  | none => intro h; simp at h
  | some row =>
    unfold calcAutoTagCore
    dsimp only
    have hdrop : droppedB (rowToInput row) tnow = false := by
      simp [droppedB, rowToInput]
    rw [hdrop]
    by_cases hm : masteredB (rowToInput row)
    · simp [hm]
      intro h
      exact Or.inl h.symm
    · by_cases hc : completedB (rowToInput row) (getHltbCache db appid 7200 (tnow : Rat))
      · simp [hm, hc]
        intro h
        exact Or.inr (Or.inl h.symm)
      · simp only [hm, hc, if_false, if_true, Bool.false_eq_true]
        cases hcmp : inProgressCmp (rowToInput row) (alookup db.settings "in_progress_threshold") with
        | none => simp
        | some b =>
          cases b
          · simp
          · simp
            intro h
            exact Or.inr (Or.inr h.symm)

/-- The stats row sync_game_with_playtime leaves for the synced game: the
frontend playtime verbatim, and achievement counts merged with the stored
row when the frontend supplied none. -/
theorem syncGameWithPlaytime_stats_self (env : Env) (db : DB) (appid : String)
    (p : Int) (tA uA : Option Int) (pA : Option Rat) (fn : Option String)
    (rt : Option Int) :
    alookup (syncGameWithPlaytime env db appid p tA uA pA fn rt).2.game_stats appid =
      some ⟨resolveName env appid fn, p,
        tA.getD (((getGameStats db appid).map (fun r => r.total_achievements)).getD 0),
        uA.getD (((getGameStats db appid).map (fun r => r.unlocked_achievements)).getD 0),
        env.tnow⟩ := by
  unfold syncGameWithPlaytime
  dsimp only
  repeat' split
  all_goals simp [updateGameStats, setTag_game_stats, alookup_upsert_self]

/-- sync_game_with_playtime writes no stats row other than the synced
game's. -/
theorem syncGameWithPlaytime_stats_frame (env : Env) (db : DB) (appid : String)
    (p : Int) (tA uA : Option Int) (pA : Option Rat) (fn : Option String)
    (rt : Option Int) (b : String) (hne : b ≠ appid) :
    alookup (syncGameWithPlaytime env db appid p tA uA pA fn rt).2.game_stats b =
      alookup db.game_stats b := by
  have hl : ∀ (l : List (String × StatsRow)) (v : StatsRow),
      alookup (upsert l appid v) b = alookup l b :=
    fun l v => alookup_upsert_ne l appid b v hne
  unfold syncGameWithPlaytime
  dsimp only
  repeat' split
  all_goals simp [updateGameStats, setTag_game_stats, cacheHltbData_game_stats, hl]

/-- The library loop writes no stats row whose id is outside the key list
it iterates. -/
theorem syncLibraryLoop_stats_frame (env : Env) (gd : List (String × GameInfo))
    (ad : List (String × AchInfo)) (gn : List (String × String)) (b : String) :
    ∀ (keys : List String) (db : DB) (cnt : LibCounts), b ∉ keys →
      alookup (syncLibraryLoop env gd ad gn keys db cnt).2.game_stats b =
        alookup db.game_stats b := by
  intro keys
  induction keys with
  | nil => intro db cnt _; rfl
  | cons a rest ih =>
    intro db cnt hb
    have hba : b ≠ a := fun h => hb (h ▸ List.mem_cons_self a rest)
    have hbrest : b ∉ rest := fun h => hb (List.mem_cons_of_mem a h)
    unfold syncLibraryLoop
    dsimp only
    rw [ih _ _ hbrest]
    exact syncGameWithPlaytime_stats_frame _ _ _ _ _ _ _ _ _ _ hba

/-- First-match lookup agrees with membership on a duplicate-free
association list. -/
theorem alookup_eq_of_mem_nodup {β : Type} (l : List (String × β)) (a : String)
    (v : β) (hnd : (l.map Prod.fst).Nodup) (hmem : (a, v) ∈ l) :
    alookup l a = some v := by
  induction l with
  | nil => cases hmem
  | cons hd t ih =>
    obtain ⟨k, w⟩ := hd
    rcases List.mem_cons.mp hmem with heq | htl
    · obtain ⟨h1, h2⟩ := Prod.mk.injEq .. ▸ heq
      cases heq
      simp [alookup]
    · have hk : k ≠ a := by
        intro hk
        subst hk
        have : k ∈ t.map Prod.fst := List.mem_map.mpr ⟨(k, v), htl, rfl⟩
        exact (List.nodup_cons.mp hnd).1 this
      simp [alookup, hk, ih (List.nodup_cons.mp hnd).2 htl]

/-- An id in the iterated key list gets its stats row rewritten with the
supplied playtime, and later iterations over the remaining distinct keys
leave it alone. -/
theorem syncLibraryLoop_playtime (env : Env) (gd : List (String × GameInfo))
    (ad : List (String × AchInfo)) (gn : List (String × String)) (a : String)
    (info : GameInfo) (hlook : alookup gd a = some info) :
    ∀ (keys : List String) (db : DB) (cnt : LibCounts), keys.Nodup → a ∈ keys →
      (alookup (syncLibraryLoop env gd ad gn keys db cnt).2.game_stats a).map
        (fun r => r.playtime_minutes) = some info.playtime_minutes := by
  intro keys
  induction keys with
  | nil => intro db cnt _ hmem; cases hmem
  | cons k rest ih =>
    intro db cnt hnd hmem
    by_cases hka : k = a
    · subst hka
      have hrest : k ∉ rest := (List.nodup_cons.mp hnd).1
      unfold syncLibraryLoop
      dsimp only
      rw [syncLibraryLoop_stats_frame env gd ad gn k rest _ _ hrest]
      rw [hlook]
      simp only [Option.getD_some]
      rw [syncGameWithPlaytime_stats_self]
      rfl
    · have hmem' : a ∈ rest := by
        rcases List.mem_cons.mp hmem with h | h
        · exact absurd h.symm hka
        · exact h
      unfold syncLibraryLoop
      dsimp only
      exact ih _ _ (List.nodup_cons.mp hnd).2 hmem'

/-- An absent hltb_cache row makes the gateway lookup miss for every ttl and
clock value. -/
theorem getHltbCache_none (db : DB) (appid : String) (ttl tnow : Rat)
    (h : alookup db.hltb_cache appid = none) :
    getHltbCache db appid ttl tnow = none := by
  unfold getHltbCache
  rw [h]

/-!
Claim theorems.
-/

/-- Claim C1 (amended): calculate_auto_tag evaluates its rules in the fixed
priority order mastered, completed, dropped, in_progress, none - an earlier
matching rule always wins (in particular 85 percent achievements yield
mastered even when the last-played rule would also fire) - and it returns
exactly one of the five outcomes for every stored stats row, cache entry or
absence, and settings map whose in_progress_threshold value (if present) is
not a plain string.  The amendment: with a string threshold the classifier
raises TypeError at the rule-4 comparison instead of returning an outcome
(see the counterexample). -/
theorem c1_classifier_priority (s : StatsInput) (hltb : Option HltbData)
    (st : List (String × SettingVal)) (tnow : Int) :
    (masteredB s = true → calcAutoTagCore s hltb st tnow = Except.ok (some "mastered")) ∧
    (masteredB s = false → completedB s hltb = true →
      calcAutoTagCore s hltb st tnow = Except.ok (some "completed")) ∧
    (masteredB s = false → completedB s hltb = false → droppedB s tnow = true →
      calcAutoTagCore s hltb st tnow = Except.ok (some "dropped")) ∧
    (masteredB s = false → completedB s hltb = false → droppedB s tnow = false →
      inProgressCmp s (alookup st "in_progress_threshold") = some true →
      calcAutoTagCore s hltb st tnow = Except.ok (some "in_progress")) ∧
    (masteredB s = false → completedB s hltb = false → droppedB s tnow = false →
      inProgressCmp s (alookup st "in_progress_threshold") = some false →
      calcAutoTagCore s hltb st tnow = Except.ok none) ∧
    (isStrVal (alookup st "in_progress_threshold") = false →
      ∃ r, calcAutoTagCore s hltb st tnow = Except.ok r ∧
        (r = some "mastered" ∨ r = some "completed" ∨ r = some "dropped" ∨
         r = some "in_progress" ∨ r = none)) := by
  refine ⟨?_, ?_, ?_, ?_, ?_, ?_⟩
  · intro hm
    simp [calcAutoTagCore, hm]
  · intro hm hc
    simp [calcAutoTagCore, hm, hc]
  · intro hm hc hd
    simp [calcAutoTagCore, hm, hc, hd]
  · intro hm hc hd hcmp
    simp [calcAutoTagCore, hm, hc, hd, hcmp]
  · intro hm hc hd hcmp
    simp [calcAutoTagCore, hm, hc, hd, hcmp]
  · intro hstr
    by_cases hm : masteredB s = true
    · exact ⟨some "mastered", by simp [calcAutoTagCore, hm], by simp⟩
    by_cases hc : completedB s hltb = true
    · refine ⟨some "completed", by simp [calcAutoTagCore, hm, hc], by simp⟩
    by_cases hd : droppedB s tnow = true
    · refine ⟨some "dropped", by simp [calcAutoTagCore, hm, hc, hd], by simp⟩
    have hcmp : ∃ b, inProgressCmp s (alookup st "in_progress_threshold") = some b := by
      cases hv : alookup st "in_progress_threshold" with
      | none => exact ⟨_, rfl⟩
      | some v =>
        cases v with
        | boolv b => exact ⟨_, rfl⟩
        | num q => exact ⟨_, rfl⟩
        | strv u =>
          rw [hv] at hstr
          simp [isStrVal] at hstr
    obtain ⟨b, hb⟩ := hcmp
    cases b
    · exact ⟨none, by simp [calcAutoTagCore, hm, hc, hd, hb], by simp⟩
    · refine ⟨some "in_progress", by simp [calcAutoTagCore, hm, hc, hd, hb], by simp⟩

/-- Claim C1 counterexample: with the (reachable) settings value
in_progress_threshold = 'high', a game matching none of rules 1-3 makes
calculate_auto_tag raise TypeError at `playtime_minutes >= threshold`
instead of returning one of the five outcomes, so the classifier as coded
is not total over all settings. -/
theorem c1_classifier_priority_counterexample :
    calcAutoTagCore ⟨0, 0, 0, none⟩ none
      [("in_progress_threshold", SettingVal.strv "high")] 0 = Except.error () := by
  decide

theorem c1_classifier_priority_witness :
    calcAutoTagCore ⟨0, 10, 9, some 1⟩ none initialSettings (20 * 365 * 86400) =
      Except.ok (some "mastered") ∧
    (∃ r, calcAutoTagCore ⟨0, 0, 0, none⟩ none initialSettings 0 = Except.ok r ∧
      (r = some "mastered" ∨ r = some "completed" ∨ r = some "dropped" ∨
       r = some "in_progress" ∨ r = none)) :=
  ⟨(c1_classifier_priority ⟨0, 10, 9, some 1⟩ none initialSettings (20 * 365 * 86400)).1
     (by decide),
   (c1_classifier_priority ⟨0, 0, 0, none⟩ none initialSettings 0).2.2.2.2.2 (by decide)⟩

/-- Claim C2 (code-bug evaluation): the game_tags CHECK constraint only
admits completed, in_progress and mastered, so set_manual_tag with
'dropped' - although 'dropped' passes the four-value validation in
main.py - hits an IntegrityError inside Database.set_tag and reports
success=False with nothing stored, while the other three enum values are
stored with is_manual=true as the claim describes. -/
theorem c2_dropped_tag_rejected :
    (setManualTag initialDb "440" (some "dropped") 0).1 = false ∧
    getTag (setManualTag initialDb "440" (some "dropped") 0).2 "440" = none ∧
    (setManualTag initialDb "440" (some "completed") 0).1 = true ∧
    getTag (setManualTag initialDb "440" (some "completed") 0).2 "440" =
      some ⟨"completed", true, 0⟩ ∧
    (setManualTag initialDb "440" (some "in_progress") 0).1 = true ∧
    getTag (setManualTag initialDb "440" (some "in_progress") 0).2 "440" =
      some ⟨"in_progress", true, 0⟩ ∧
    (setManualTag initialDb "440" (some "mastered") 0).1 = true ∧
    getTag (setManualTag initialDb "440" (some "mastered") 0).2 "440" =
      some ⟨"mastered", true, 0⟩ := by
  decide

/-- Claim C4: every completion-cache entry is written with the SQLite
CURRENT_TIMESTAMP text, which Python float() cannot parse, so the ttl
age-check inside get_hltb_cache falls back to "cached now" and the entry is
returned for every ttl and every later clock value - the cache never
expires inside the gateway. -/
theorem c4_cache_never_expires (db : DB) (appid : String) (d : HltbData)
    (tstore : Int) (ttl tnow : Rat) :
    getHltbCache (cacheHltbData db appid d tstore) appid ttl tnow = some d := by
  unfold getHltbCache cacheHltbData
  simp [alookup_upsert_self]

/-- Claim C6: library-wide sync iterates over exactly the ids present in
the supplied live-data map.  Part 1: a stored game whose id is absent from
the map keeps its stats row unchanged.  Part 2: each id present in the
(duplicate-free) map gets its stats row rewritten with the supplied
playtime. -/
theorem c6_batch_sync_frame :
    (∀ (env : Env) (gd : List (String × GameInfo)) (ad : List (String × AchInfo))
       (gn : List (String × String)) (db : DB) (b : String),
       b ∉ gd.map Prod.fst →
       alookup (syncLibraryWithPlaytime env gd ad gn db).2.game_stats b =
         alookup db.game_stats b) ∧
    (∀ (env : Env) (gd : List (String × GameInfo)) (ad : List (String × AchInfo))
       (gn : List (String × String)) (db : DB) (a : String) (info : GameInfo),
       (gd.map Prod.fst).Nodup → (a, info) ∈ gd →
       (alookup (syncLibraryWithPlaytime env gd ad gn db).2.game_stats a).map
         (fun r => r.playtime_minutes) = some info.playtime_minutes) := by
  constructor
  · intro env gd ad gn db b hb
    exact syncLibraryLoop_stats_frame env gd ad gn b _ db _ hb
  · intro env gd ad gn db a info hnd hmem
    exact syncLibraryLoop_playtime env gd ad gn a info
      (alookup_eq_of_mem_nodup gd a info hnd hmem) _ db _ hnd
      (List.mem_map.mpr ⟨(a, info), hmem, rfl⟩)

/-- Concrete setup for the C6 witness: three stored games, a live-data map
carrying two of them. -/
def envC6 : Env := ⟨fun _ => none, fun _ => "X", fun _ => none, 9⟩

def dbC6 : DB :=
  { game_tags := [],
    game_stats := [("1", ⟨"A", 1, 0, 0, 0⟩), ("2", ⟨"B", 2, 0, 0, 0⟩), ("777", ⟨"C", 3, 0, 0, 0⟩)],
    hltb_cache := [],
    settings := initialSettings }

def gdC6 : List (String × GameInfo) := [("1", ⟨42, none⟩), ("2", ⟨5, none⟩)]

theorem c6_batch_sync_frame_witness :
    alookup (syncLibraryWithPlaytime envC6 gdC6 [] [] dbC6).2.game_stats "777" =
      alookup dbC6.game_stats "777" ∧
    (alookup (syncLibraryWithPlaytime envC6 gdC6 [] [] dbC6).2.game_stats "1").map
      (fun r => r.playtime_minutes) = some (GameInfo.mk 42 none).playtime_minutes :=
  ⟨c6_batch_sync_frame.1 envC6 gdC6 [] [] dbC6 "777" (by decide),
   c6_batch_sync_frame.2 envC6 gdC6 [] [] dbC6 "1" ⟨42, none⟩ (by decide) (by decide)⟩

/-- Claim C7: a sync that supplies no achievement data (None fields) leaves
the stored total and unlocked achievement counts unchanged instead of
zeroing them.  The game_stats table has no achievement_percentage column,
so the percentage a reader derives from these preserved counts is unchanged
as well. -/
theorem c7_partial_achievement_preserved (env : Env) (db : DB) (appid : String)
    (p : Int) (fn : Option String) (rt : Option Int) (r : StatsRow)
    (hex : getGameStats db appid = some r) :
    (alookup (syncGameWithPlaytime env db appid p none none none fn rt).2.game_stats appid).map
      (fun x => (x.total_achievements, x.unlocked_achievements)) =
      some (r.total_achievements, r.unlocked_achievements) := by
  rw [syncGameWithPlaytime_stats_self]
  simp [hex]

/-- Concrete setup for the C7 witness: a first sync stores achievements
10/5, the second supplies none. -/
def envC7 : Env := ⟨fun _ => none, fun _ => "G", fun _ => none, 0⟩

def dbC7 : DB :=
  (syncGameWithPlaytime envC7 initialDb "440" 100 (some 10) (some 5) (some 50)
    (some "G") none).2

theorem c7_partial_achievement_preserved_witness :
    (alookup (syncGameWithPlaytime envC7 dbC7 "440" 120 none none none (some "G") none).2.game_stats "440").map
      (fun x => (x.total_achievements, x.unlocked_achievements)) = some (10, 5) :=
  c7_partial_achievement_preserved envC7 dbC7 "440" 120 (some "G") none
    ⟨"G", 100, 10, 5, 0⟩ (by decide)

/-- Claim C3 (amended): a manual tag survives every non-forced sync - a
non-forced sync_game_tags returns the stored record and changes nothing,
and sync_game_with_playtime refreshes stats but leaves the tag row exactly
as it was; a forced sync_game_tags replaces the tag with the freshly
recomputed automatic classification and clears is_manual WHEN that
classification is a tag.  The amendment: when the recomputed classification
is none, the forced reset leaves the manual record in place, is_manual
still true (see the counterexample). -/
theorem c3_manual_override (env : Env) (db : DB) (appid : String) (ls : StatsDict)
    (t : TagRow) (hget : getTag db appid = some t) (hman : t.is_manual = true) :
    syncGameTags env db appid false ls = (SyncTagsOut.res (some t), db) ∧
    (∀ (p : Int) (tA uA : Option Int) (pA : Option Rat) (fn : Option String)
       (rt : Option Int),
      getTag (syncGameWithPlaytime env db appid p tA uA pA fn rt).2 appid = some t) ∧
    (∀ v : String,
      calcAutoTagDb (hltbStepTags env (updateGameStats db appid ls env.tnow) appid
        ls.game_name) appid env.tnow = Except.ok (some v) →
      getTag (syncGameTags env db appid true ls).2 appid = some ⟨v, false, env.tnow⟩) := by
  refine ⟨?_, ?_, ?_⟩
  · unfold syncGameTags
    simp [hget, hman]
  · intro p tA uA pA fn rt
    unfold syncGameWithPlaytime
    dsimp only
    rw [hget]
    simp only [Option.map_some', Option.getD_some, hman, if_true]
    unfold getTag
    simp only [updateGameStats_game_tags]
    split
    · simp only [cacheHltbData_game_tags]
      exact hget
    · exact hget
  · intro v hcalc
    have hv3 := calcAutoTagDb_not_dropped _ _ _ _ hcalc
    unfold syncGameTags
    dsimp only
    rw [hget]
    simp only [Option.map_some', Option.getD_some, hman, Bool.not_true, Bool.and_false,
      Bool.false_eq_true, if_false]
    rw [hcalc]
    dsimp only
    have hcond : some v ≠ some t.tag ∨ ((true && true : Bool) = true) := Or.inr rfl
    rw [if_pos hcond]
    rcases hv3 with hv | hv | hv <;> subst hv <;>
      simp [setTag, getTag, alookup_upsert_self]

/-- Environment and state used by the C3 counterexample and witness: one
game with a manual 'completed' tag. -/
def envC3 : Env := ⟨fun _ => none, fun _ => "G", fun _ => none, 0⟩

def dbC3 : DB :=
  { game_tags := [("1", ⟨"completed", true, 5⟩)],
    game_stats := [("1", ⟨"G", 0, 0, 0, 0⟩)],
    hltb_cache := [],
    settings := initialSettings }

/-- Claim C3 counterexample: forcing a reset on a manually tagged game
whose recomputed automatic classification is none (zero playtime, no
achievements, no completion data) leaves the stored record as
tag='completed', is_manual=true - the forced reset neither clears
is_manual nor replaces the tag. -/
theorem c3_manual_override_counterexample :
    getTag (syncGameTags envC3 dbC3 "1" true ⟨"G", 0, 0, 0, 0, false, none⟩).2 "1" =
      some ⟨"completed", true, 5⟩ := by
  decide

def lsC3 : StatsDict := ⟨"G", 120, 0, 0, 0, false, none⟩

theorem c3_manual_override_witness :
    syncGameTags envC3 dbC3 "1" false lsC3 =
      (SyncTagsOut.res (some ⟨"completed", true, 5⟩), dbC3) ∧
    getTag (syncGameWithPlaytime envC3 dbC3 "1" 7 none none none (some "G") none).2 "1" =
      some ⟨"completed", true, 5⟩ ∧
    getTag (syncGameTags envC3 dbC3 "1" true lsC3).2 "1" = some ⟨"in_progress", false, 0⟩ :=
  have h := c3_manual_override envC3 dbC3 "1" lsC3 ⟨"completed", true, 5⟩ (by decide) rfl
  ⟨h.1, h.2.1 7 none none none (some "G") none, h.2.2 "in_progress" (by decide)⟩

/-- Claim C5 (amended): a best match below similarity 0.7 is rejected by
the search service, so no sync caches anything for it; in
sync_game_with_playtime a match with a null main-story duration is not
cached, while a returned match (similarity at least 0.7, exactly 0.70
included) with a truthy main-story duration is upserted.  The amendment:
sync_game_tags has no main-story gate and upserts ANY returned match, null
main story included - the claim's "never produces a cache entry" fails on
that path (see the counterexample). -/
theorem c5_cache_write_gate :
    (∀ (name : String) (c : Candidate) (cs : List Candidate),
      (bestBy c cs).similarity < mkRat 7 10 → hltbServiceSearch name (c :: cs) = none) ∧
    (∀ (env : Env) (db : DB) (appid : String) (force : Bool) (ls : StatsDict),
      env.search ls.game_name = none → alookup db.hltb_cache appid = none →
      alookup (syncGameTags env db appid force ls).2.hltb_cache appid = none) ∧
    (∀ (env : Env) (db : DB) (appid : String) (p : Int) (tA uA : Option Int)
       (pA : Option Rat) (fn : Option String) (rt : Option Int) (d : HltbData),
      alookup db.hltb_cache appid = none →
      env.search (resolveName env appid fn) = some d → d.main_story = none →
      alookup (syncGameWithPlaytime env db appid p tA uA pA fn rt).2.hltb_cache appid =
        none) ∧
    (∀ (env : Env) (db : DB) (appid : String) (p : Int) (tA uA : Option Int)
       (pA : Option Rat) (fn : Option String) (rt : Option Int) (d : HltbData) (h : Rat),
      alookup db.hltb_cache appid = none →
      env.search (resolveName env appid fn) = some d → d.main_story = some h → h ≠ 0 →
      alookup (syncGameWithPlaytime env db appid p tA uA pA fn rt).2.hltb_cache appid =
        some ⟨d, CachedAt.sqliteText env.tnow⟩) ∧
    (∀ (env : Env) (db : DB) (appid : String) (force : Bool) (ls : StatsDict)
       (d : HltbData),
      getTag db appid = none → alookup db.hltb_cache appid = none →
      env.search ls.game_name = some d →
      alookup (syncGameTags env db appid force ls).2.hltb_cache appid =
        some ⟨d, CachedAt.sqliteText env.tnow⟩) := by
  refine ⟨?_, ?_, ?_, ?_, ?_⟩
  · intro name c cs hsim
    unfold hltbServiceSearch
    by_cases hname : name = "" ∨ strStartsWith name "Unknown" = true
    · simp [hname]
    · simp only [hname, if_false]
      rw [if_pos hsim]
  · intro env db appid force ls hsearch hmiss
    unfold syncGameTags
    dsimp only
    split
    · exact hmiss
    · have hstep : hltbStepTags env (updateGameStats db appid ls env.tnow) appid
          ls.game_name = updateGameStats db appid ls env.tnow := by
        unfold hltbStepTags
        rw [getHltbCache_none _ _ _ _ (by rw [updateGameStats_hltb_cache]; exact hmiss)]
        rw [hsearch]
      rw [hstep]
      repeat' split
      all_goals simp [updateGameStats_hltb_cache, setTag_hltb_cache, hmiss]
  · intro env db appid p tA uA pA fn rt d hmiss hsearch hms
    unfold syncGameWithPlaytime
    dsimp only
    rw [getHltbCache_none _ _ _ _ hmiss, hsearch]
    dsimp only
    rw [hms]
    dsimp only [optTruthy]
    simp only [Bool.false_eq_true, if_false]
    repeat' split
    all_goals simp_all [updateGameStats_hltb_cache, setTag_hltb_cache, hmiss]
  · intro env db appid p tA uA pA fn rt d h hmiss hsearch hms hne
    unfold syncGameWithPlaytime
    dsimp only
    rw [getHltbCache_none _ _ _ _ hmiss, hsearch]
    dsimp only
    rw [hms]
    dsimp only [optTruthy]
    rw [if_pos (show (h != 0) = true by simp [hne])]
    repeat' split
    all_goals simp_all [updateGameStats_hltb_cache, setTag_hltb_cache, cacheHltbData,
      alookup_upsert_self]
  · intro env db appid force ls d hno hmiss hsearch
    unfold syncGameTags
    dsimp only
    rw [hno]
    simp only [Option.map_none', Option.getD_none, Bool.false_and, Bool.false_eq_true,
      if_false]
    have hstep : hltbStepTags env (updateGameStats db appid ls env.tnow) appid
        ls.game_name = cacheHltbData (updateGameStats db appid ls env.tnow) appid d
          env.tnow := by
      unfold hltbStepTags
      rw [getHltbCache_none _ _ _ _ (by rw [updateGameStats_hltb_cache]; exact hmiss)]
      rw [hsearch]
    rw [hstep]
    repeat' split
    all_goals simp [updateGameStats_hltb_cache, setTag_hltb_cache, cacheHltbData,
      alookup_upsert_self]

/-- The similarity-0.8, null-main-story search result used by the C5
counterexample, and environments returning fixed search results. -/
def hltbNullC5 : HltbData :=
  ⟨"Zelda", some "Zelda", some (mkRat 4 5), none, none, none, none, some "u"⟩

def envC5 : Env := ⟨fun _ => some hltbNullC5, fun _ => "Zelda", fun _ => none, 0⟩

/-- Claim C5 counterexample: on a cache miss, sync_game_tags upserts a
search result whose best match has similarity 0.8 but a null main-story
duration - the miss IS cached on this path, contradicting the claim. -/
theorem c5_cache_write_gate_counterexample :
    alookup (syncGameTags envC5 initialDb "10" false
      ⟨"Zelda", 0, 0, 0, 0, false, none⟩).2.hltb_cache "10" =
      some ⟨hltbNullC5, CachedAt.sqliteText 0⟩ := by
  decide

def candLowC5 : Candidate := ⟨"Z", mkRat 69 100, none, none, none, none, "u"⟩

def dFullC5 : HltbData :=
  ⟨"Zelda", some "Zelda", some (mkRat 7 10), some (mkRat 3 2), none, none, none, some "u"⟩

def envC5n : Env := ⟨fun _ => some hltbNullC5, fun _ => "Zelda", fun _ => none, 3⟩

def envC5w : Env := ⟨fun _ => some dFullC5, fun _ => "Zelda", fun _ => none, 3⟩

theorem c5_cache_write_gate_witness :
    hltbServiceSearch "Zelda" [candLowC5] = none ∧
    alookup (syncGameWithPlaytime envC5n initialDb "10" 0 none none none
      (some "Zelda") none).2.hltb_cache "10" = none ∧
    alookup (syncGameWithPlaytime envC5w initialDb "10" 0 none none none
      (some "Zelda") none).2.hltb_cache "10" = some ⟨dFullC5, CachedAt.sqliteText 3⟩ ∧
    alookup (syncGameTags envC5n initialDb "10" false
      ⟨"Zelda", 0, 0, 0, 0, false, none⟩).2.hltb_cache "10" =
      some ⟨hltbNullC5, CachedAt.sqliteText 3⟩ :=
  ⟨c5_cache_write_gate.1 "Zelda" candLowC5 [] (by decide),
   c5_cache_write_gate.2.2.1 envC5n initialDb "10" 0 none none none (some "Zelda") none
     hltbNullC5 (by decide) (by decide) (by decide),
   c5_cache_write_gate.2.2.2.1 envC5w initialDb "10" 0 none none none (some "Zelda") none
     dFullC5 (mkRat 3 2) (by decide) (by decide) (by decide) (by decide),
   c5_cache_write_gate.2.2.2.2 envC5n initialDb "10" false
     ⟨"Zelda", 0, 0, 0, 0, false, none⟩ hltbNullC5 (by decide) (by decide) (by decide)⟩

/-- Environment used by the C8 evaluation: no HLTB results, and a clock one
second past the 365-day boundary for a game last played at time 100. -/
def envC8 : Env := ⟨fun _ => none, fun _ => "G", fun _ => none, 100 + 365 * 86400 + 1⟩

/-- Claim C8 (code-bug evaluation): the classifier itself honours the
strict boundary - with the last-played timestamp in scope, exactly
365*86400 elapsed seconds is NOT dropped and one more second IS - but
update_game_stats has no rt_last_time_played column, get_game_stats hands
the classifier a dictionary without the key, and so syncing a game one
second past the boundary still does not classify it dropped: the sync
pipeline loses the timestamp on the way through the store. -/
theorem c8_dropped_boundary :
    calcAutoTagCore ⟨0, 0, 0, some 100⟩ none initialSettings (100 + 365 * 86400) =
      Except.ok none ∧
    calcAutoTagCore ⟨0, 0, 0, some 100⟩ none initialSettings (100 + 365 * 86400 + 1) =
      Except.ok (some "dropped") ∧
    getTag (syncGameWithPlaytime envC8 initialDb "440" 0 none none none (some "G")
      (some 100)).2 "440" = none := by
  decide

/-- The two stats rows used by the C9 evaluation: playtime 30 and 60 on an
otherwise untouched freshly initialized database. -/
def dbC9a : DB := { initialDb with game_stats := [("440", ⟨"G", 30, 0, 0, 0⟩)] }

def dbC9b : DB := { initialDb with game_stats := [("440", ⟨"G", 60, 0, 0, 0⟩)] }

/-- Claim C9 (code-bug evaluation): init_database seeds
in_progress_threshold = '60', so after initialization with defaults the
read-back threshold is the float 60, and a non-hidden, non-manual game with
playtime 30 that matches no earlier rule is classified none - not
in_progress as the claim (and the code's own "default 30 min" docstring)
says; playtime 60 is the real default boundary. -/
theorem c9_default_threshold :
    alookup initialSettings "in_progress_threshold" = some (SettingVal.num 60) ∧
    calcAutoTagDb dbC9a "440" 0 = Except.ok none ∧
    calcAutoTagDb dbC9b "440" 0 = Except.ok (some "in_progress") := by
  decide

/-- A successful bytes.find with a nonempty pattern lands strictly inside
the buffer. -/
theorem bFindAux_some_lt (c p : List Nat) (hp : p ≠ []) :
    ∀ (fuel i j : Nat), bFindAux c p fuel i = some j → j < c.length := by
  intro fuel
  induction fuel with
  | zero =>
    intro i j h
    simp [bFindAux] at h
  | succ n ih =>
    intro i j h
    unfold bFindAux at h
    by_cases h1 : c.length < i
    · rw [if_pos h1] at h
      cases h
    · rw [if_neg h1] at h
      by_cases h2 : startsWithBytes (c.drop i) p = true
      · rw [if_pos h2] at h
        cases h
        rcases Nat.lt_or_ge i c.length with hlt | hge
        · exact hlt
        · exfalso
          have hdrop : c.drop i = [] := List.drop_eq_nil_of_le hge
          rw [hdrop] at h2
          cases p with
          | nil => exact hp rfl
          | cons b bs => simp [startsWithBytes] at h2
      · rw [if_neg h2] at h
        exact ih (i + 1) j h

theorem bFind_some_lt (c p : List Nat) (s j : Nat) (hp : p ≠ [])
    (h : bFind c p s = some j) : j < c.length :=
  bFindAux_some_lt c p hp _ s j h

/-- Claim C10: for a buffer holding exactly one well-formed AppName/appid
field pair - the name marker found at m with a NUL terminator at e and no
further name marker afterwards, the appid marker found at am inside the
500-byte window with 4 readable bytes, a nonempty name and a nonzero id -
the parser returns exactly one record: name = the NUL-terminated byte run
after the name marker, id = the 4-byte little-endian integer after the
appid marker (as a string), playtime 0, flagged non-Steam.  For a buffer
whose name field has no NUL terminator it returns zero records; and being a
total function, the parser never raises. -/
theorem c10_shortcuts_binary (c : List Nat) (m e am : Nat) :
    (bFind c appNameMarker 0 = some m →
     bFind c [0] (m + 9) = some e →
     bFind c appNameMarker (e + 1) = none →
     bFind c appidMarker 0 = some am →
     am < m + 500 →
     am + 7 + 4 ≤ c.length →
     sliceBytes c (m + 9) e ≠ [] →
     leDecode (sliceBytes c (am + 7) (am + 7 + 4)) ≠ 0 →
     parseShortcutsBinary c =
       [⟨toString (leDecode (sliceBytes c (am + 7) (am + 7 + 4))),
         sliceBytes c (m + 9) e, 0, true⟩]) ∧
    (bFind c appNameMarker 0 = some m →
     bFind c [0] (m + 9) = none →
     parseShortcutsBinary c = []) := by
  constructor
  · intro h1 h2 h3 h4 h5 h6 h7 h8
    have hm : m < c.length := bFind_some_lt c appNameMarker 0 m (by decide) h1
    have he : e < c.length := bFind_some_lt c [0] (m + 9) e (by decide) h2
    have hlen : 0 < c.length := Nat.lt_of_le_of_lt (Nat.zero_le m) hm
    unfold parseShortcutsBinary
    rw [shortcutsLoop]
    rw [if_pos hlen, h1]
    dsimp only
    rw [h2]
    dsimp only
    rw [h4]
    dsimp only
    rw [if_pos h5, if_pos h6]
    dsimp only
    rw [if_pos ⟨h7, h8⟩]
    obtain ⟨n, hn⟩ : ∃ n, c.length = n + 1 := ⟨c.length - 1, by omega⟩
    rw [hn]
    rw [shortcutsLoop]
    by_cases hguard : e + 1 < c.length
    · rw [if_pos hguard, h3]
      simp
    · rw [if_neg hguard]
      simp
  · intro h1 h2
    have hm : m < c.length := bFind_some_lt c appNameMarker 0 m (by decide) h1
    have hlen : 0 < c.length := Nat.lt_of_le_of_lt (Nat.zero_le m) hm
    unfold parseShortcutsBinary
    rw [shortcutsLoop]
    rw [if_pos hlen, h1]
    dsimp only
    rw [h2]

/-- A buffer with one well-formed pair: appid field (id 3000000555,
little-endian bytes 43 96 208 178) followed by AppName field "Emulator". -/
def bufGood : List Nat :=
  [2, 97, 112, 112, 105, 100, 0, 43, 96, 208, 178,
   1, 65, 112, 112, 78, 97, 109, 101, 0,
   69, 109, 117, 108, 97, 116, 111, 114, 0]

/-- A truncated buffer: an AppName field whose name bytes never reach a NUL
terminator. -/
def bufTrunc : List Nat := [1, 65, 112, 112, 78, 97, 109, 101, 0, 69, 109, 117]

theorem c10_shortcuts_binary_witness :
    parseShortcutsBinary bufGood =
      [⟨toString (leDecode (sliceBytes bufGood 7 11)), sliceBytes bufGood 20 28, 0, true⟩] ∧
    parseShortcutsBinary bufTrunc = [] :=
  ⟨(c10_shortcuts_binary bufGood 11 28 0).1 (by decide) (by decide) (by decide) (by decide)
     (by decide) (by decide) (by decide) (by decide),
   (c10_shortcuts_binary bufTrunc 0 0 0).2 (by decide) (by decide)⟩

end GameTags
